import Mathlib

/-!
Shallow embedding of plotv.py: a versioned plot store over a ROOT container
file.  Directories hold a write-ordered sequence of (key-name, object) pairs;
writing an existing name again creates a new revision ("cycle", 1-based).
The writer class plot_version offers save / comment / tag / close; the CLI
offers list and get <id> <rev>.
-/

/-- A Python-level exception raised by the modelled code. -/
inductive PyErr
  | nameError
  | typeError
  | attributeError
  | indexError
  | valueError
deriving DecidableEq

/-- A stored ROOT object: its own name (GetName) and title/content (GetTitle).
TNamed("comment", text) has name "comment" and title text; a plot object
carries its intrinsic name and, as title, the payload that distinguishes
revisions. -/
structure RObj where
  name : String
  title : String
deriving DecidableEq

/-- A ROOT directory (one namespace): the sequence of (key-name, object)
writes in write order.  WriteTObject never deletes: the k-th write under a
given key name is revision (cycle) k of that name. -/
structure RDir where
  writes : List (String × RObj)
deriving DecidableEq

/-- A key as returned by GetListOfKeys: name, cycle and the stored object. -/
structure RKey where
  name : String
  cycle : Nat
  obj : RObj
deriving DecidableEq

/-- All objects written under key name n, in write order (revision 1 first). -/
def namedWrites (d : RDir) (n : String) : List RObj :=
  (d.writes.filter (fun w => w.1 == n)).map Prod.snd

/-- fdir.Get("name;cycle"): the object stored as revision c of name n, none
when that revision does not exist (ROOT returns a null pointer, falsy in
Python). -/
def getCycle (d : RDir) (n : String) (c : Int) : Option RObj :=
  if c ≤ 0 then none else (namedWrites d n)[c.toNat - 1]?

/-- fdir.GetKey(name): the key with the highest cycle for the name, none when
the name was never written; we record the cycle number it reports. -/
def getKeyCycle (d : RDir) (n : String) : Option Nat :=
  if (namedWrites d n).isEmpty then none else some (namedWrites d n).length

/-- fdir.GetListOfKeys(): one key per write, in write order, each carrying its
cycle number (one more than the number of earlier writes of the same name). -/
def rkeysAux : List (String × RObj) → List (String × RObj) → List RKey
  | _, [] => []
  | prev, (n, o) :: rest =>
      ⟨n, (prev.filter (fun w => w.1 == n)).length + 1, o⟩ ::
        rkeysAux (prev ++ [(n, o)]) rest

/-- The keys of a directory, as enumerated by GetListOfKeys. -/
def rkeys (d : RDir) : List RKey := rkeysAux [] d.writes

/-- Append one write to a directory (TDirectory.WriteTObject). -/
def writeObj (d : RDir) (name : String) (o : RObj) : RDir :=
  ⟨d.writes ++ [(name, o)]⟩

/-- The container file seen by the reader: top-level namespace keys with
their directories, in container order. -/
abbrev RFile := List (String × RDir)

/-- rf.Get(key) for a top-level namespace key. -/
def getDir (rf : RFile) (k : String) : Option RDir :=
  (rf.find? (fun p => p.1 == k)).map Prod.snd

/-! ## Writer: class plot_version -/

/-- Writer session state: the current namespace directory and the two
bookkeeping flags (plotv.py sets self.tagged and self.commented to False in
__init__). -/
structure PlotVersion where
  dir : RDir
  tagged : Bool
  commented : Bool
deriving DecidableEq

/-- Writer state right after plot_version() opened a fresh (empty) time-bucket
namespace: no writes yet, both flags False. -/
def pvFresh : PlotVersion := ⟨⟨[]⟩, false, false⟩

namespace plot_version

/-- plot_version.comment(comment): writes TNamed("comment", text) — with no
explicit key name, WriteTObject uses the own name "comment" of the object — and
sets the commented flag. -/
def comment (pv : PlotVersion) (c : String) : PlotVersion :=
  { pv with dir := writeObj pv.dir "comment" ⟨"comment", c⟩, commented := true }

/-- plot_version.tag(msg): writes TNamed("tag", msg), then executes
self.tagged = true — but the lowercase name true is undefined in Python, so
evaluating the right-hand side raises NameError after the write has already
happened; the tagged flag is never assigned. -/
def tag (pv : PlotVersion) (msg : String) : PlotVersion × Option PyErr :=
  ({ pv with dir := writeObj pv.dir "tag" ⟨"tag", msg⟩ }, some PyErr.nameError)

/-- plot_version.save(plot, name=""): the key name defaults to the GetName() of
the plot itself; the object is written under that key (a new revision if the name
already exists). -/
def save (pv : PlotVersion) (plot : RObj) (name : String) : PlotVersion :=
  let n := if name = "" then plot.name else name
  { pv with dir := writeObj pv.dir n plot }

/-- Outcome of a close attempt: resulting writer state, whether
root_file.Close() was reached, and the exception raised if any. -/
structure CloseResult where
  st : PlotVersion
  fileClosed : Bool
  err : Option PyErr
deriving DecidableEq

/-- Calling pv.close(): close is defined as def close(): with no self
parameter, so the bound-method call (which passes the instance implicitly)
raises TypeError before any statement of the body runs; nothing is written
and the file handle is not released. -/
def closeCall (pv : PlotVersion) : CloseResult :=
  ⟨pv, false, some PyErr.typeError⟩

/-- The body of close as written, as it would execute were self bound: when
not commented, auto-write a comment ("Tagging" if tagged, else "MISSING
COMMENT"); when not tagged, call tag("") — which writes the tag object and
raises NameError, so root_file.Close() is never reached on that path. -/
def closeBody (pv : PlotVersion) : CloseResult :=
  let pv1 := if pv.commented then pv
             else comment pv (if pv.tagged then "Tagging" else "MISSING COMMENT")
  if pv1.tagged then ⟨pv1, true, none⟩
  else
    let r := tag pv1 ""
    ⟨r.1, false, r.2⟩

end plot_version

/-! ## Reader: the list and get commands -/

/-- CLI options dict: output file types (-t, default ["png"]) and output
directory (-o, default "."). -/
structure Opts where
  types : List String
  outdir : String
deriving DecidableEq

/-- The default options of _getopts. -/
def defaultOpts : Opts := ⟨["png"], "."⟩

/-- A filesystem mutation performed by the reader: os.makedirs, or a file
written by obj.SaveAs(path) (recorded with the object it renders). -/
inductive FsOp
  | makedirs (path : String)
  | saveFile (path : String) (obj : RObj)
deriving DecidableEq

/-- load_content(rf): the top-level key names, in container order. -/
def load_content (rf : RFile) : List String := rf.map Prod.fst

/-- One line of list_directory output, structured: the tagged marker (the
asterisk), the cycle index, the comment title, and the tag message printed on
the following line when tagged. -/
structure LDRow where
  tagged : Bool
  idx : Nat
  commentTitle : String
  tagMsg : Option String
deriving DecidableEq

/-- The text actually printed for one row ("\t%s %d - %s", then "\t\t%s" when
tagged). -/
def renderRow (r : LDRow) : List String :=
  ("\t" ++ (if r.tagged then "*" else " ") ++ " " ++ toString r.idx ++ " - "
      ++ r.commentTitle)
  :: (match r.tagMsg with | some m => ["\t\t" ++ m] | none => [])

/-- One iteration of the list_directory loop at cycle ci: fetch comment;ci and
tag;ci; tagged requires the tag object to exist AND its title to be non-empty
(line: if tag and tag.GetTitle() != ""); printing the comment title raises
AttributeError when comment;ci is absent (None.GetTitle()). -/
def ldRow (fdir : RDir) (ci : Nat) : Except PyErr LDRow :=
  match getCycle fdir "comment" (ci : Int) with
  | none => .error PyErr.attributeError
  | some cmt =>
    match getCycle fdir "tag" (ci : Int) with
    | some t =>
        if t.title = "" then .ok ⟨false, ci, cmt.title, none⟩
        else .ok ⟨true, ci, cmt.title, some t.title⟩
    | none => .ok ⟨false, ci, cmt.title, none⟩

/-- The loop for i in xrange(cycle, 0, -1) of list_directory. -/
def listDirLoop (fdir : RDir) : Nat → Except PyErr (List LDRow)
  | 0 => .ok []
  | m + 1 =>
    match ldRow fdir (m + 1) with
    | .error e => .error e
    | .ok r =>
      match listDirLoop fdir m with
      | .error e => .error e
      | .ok rest => .ok (r :: rest)

/-- list_directory(fdir): lastkey = fdir.GetKey("comment"); when the comment
key is absent GetKey returns None and lastkey.GetCycle() raises
AttributeError; otherwise the rows for cycles lastkey.GetCycle() down to 1. -/
def list_directory (fdir : RDir) : Except PyErr (List LDRow) :=
  match getKeyCycle fdir "comment" with
  | none => .error PyErr.attributeError
  | some cycle => listDirLoop fdir cycle

/-- save_obj(obj, opt): for each requested type, obj.SaveAs(outdir + "/" +
obj.GetName() + "." + tp).  The file name comes from the GetName of the stored
object itself, and the output directory is used literally. -/
def save_obj (obj : RObj) (opt : Opts) : List FsOp :=
  let pfx := opt.outdir ++ "/" ++ obj.name
  opt.types.map (fun tp => FsOp.saveFile (pfx ++ "." ++ tp) obj)

/-- Python list indexing content[i]: non-negative indices from the front,
negative indices from the back, IndexError (none) outside [-len, len). -/
def pyIndex (l : List String) (i : Int) : Option String :=
  if 0 ≤ i then l[i.toNat]?
  else if 0 ≤ i + (l.length : Int) then l[(i + (l.length : Int)).toNat]?
  else none

/-- Result of a get run: the lines printed, the filesystem mutations
performed before any exception, and the exception that ended the run if
any. -/
structure GetResult where
  printed : List String
  fs : List FsOp
  err : Option PyErr
deriving DecidableEq

/-- The export loop of get_content: for each key of the directory whose name
is not in ["comment", "tag"] and whose cycle equals cmd.rev, fetch
fdir.Get("name;rev") and save it in every requested type. -/
def exportLoop (fdir : RDir) (rev : Int) (opt : Opts) : List FsOp :=
  (rkeys fdir).flatMap (fun k =>
    if k.name ≠ "comment" ∧ k.name ≠ "tag" ∧ (k.cycle : Int) = rev then
      match getCycle fdir k.name rev with
      | some obj => save_obj obj opt
      | none => []
    else [])

/-- get_content(rf, cmd, opt), with outdirExists modelling
os.path.exists of the output directory.  Faithful to the source: an out-of-range id
prints "Error: Invalid id %d" but does NOT return, so content[cmd.id - 1] is
still evaluated (Python negative indexing for id <= 0, IndexError past the
ends); an absent comment;rev prints "Error: Invalid revision %d" but does NOT
return, so cmt.GetTitle() then raises AttributeError after the "Loading
plots" line. -/
def get_content (rf : RFile) (id rev : Int) (opt : Opts) (outdirExists : Bool) :
    GetResult :=
  let content := load_content rf
  let p0 : List String :=
    if id ≤ 0 ∨ id > (content.length : Int)
    then ["Error: Invalid id " ++ toString id] else []
  match pyIndex content (id - 1) with
  | none => ⟨p0, [], some PyErr.indexError⟩
  | some key =>
    match getDir rf key with
    | none => ⟨p0, [], some PyErr.attributeError⟩
    | some fdir =>
      match getCycle fdir "comment" rev with
      | none =>
          ⟨p0 ++ ["Error: Invalid revision " ++ toString rev,
                  "Loading plots for " ++ key ++ " - " ++ toString rev],
           [], some PyErr.attributeError⟩
      | some cmt =>
        let p1 := p0 ++ ["Loading plots for " ++ key ++ " - " ++ toString rev,
                         " -> " ++ cmt.title]
        let pDir : List String :=
          if outdirExists then []
          else ["Creating output directory: " ++ opt.outdir]
        let fsDir : List FsOp :=
          if outdirExists then [] else [FsOp.makedirs opt.outdir]
        ⟨p1 ++ pDir, fsDir ++ exportLoop fdir rev opt, none⟩

/-- Python int(s) as used on the get arguments (int(args[1]), int(args[2])):
an optional sign followed by at least one digit; anything else raises
ValueError. -/
def pyInt (s : String) : Option Int :=
  let cs := s.toList
  let p : Bool × List Char :=
    match cs with
    | '-' :: r => (true, r)
    | '+' :: r => (false, r)
    | r => (false, r)
  if p.2 ≠ [] ∧ p.2.all Char.isDigit then
    let n : Nat := p.2.foldl (fun a c => 10 * a + (c.toNat - 48)) 0
    some (if p.1 then -(n : Int) else (n : Int))
  else none

/-- The get command end to end on an opened container: _getopts converts both
id and rev with int() — a non-integer argument (such as a literal namespace
key) raises ValueError before anything is resolved — then get_content runs.
There is no literal-key lookup stage. -/
def cli_get (rf : RFile) (idArg revArg : String) (opt : Opts)
    (outdirExists : Bool) : GetResult :=
  match pyInt idArg with
  | none => ⟨[], [], some PyErr.valueError⟩
  | some i =>
    match pyInt revArg with
    | none => ⟨[], [], some PyErr.valueError⟩
    | some r => get_content rf i r opt outdirExists

/-! ## Concrete fixtures used by counterexamples and witnesses -/

/-- A namespace with one comment revision and one plot h1. -/
def dirOne : RDir := ⟨[("comment", ⟨"comment", "c"⟩), ("h1", ⟨"h1", "t"⟩)]⟩

/-- A namespace where plot b has two revisions (titles "old" and "new") and
plot a has one; the comment has two revisions. -/
def dirTwoRevB : RDir := ⟨[("comment", ⟨"comment", "c1"⟩), ("a", ⟨"a", "ta"⟩),
  ("b", ⟨"b", "old"⟩), ("comment", ⟨"comment", "c2"⟩), ("b", ⟨"b", "new"⟩)]⟩

/-- A namespace containing only a plot, with no comment object (a session that
saved a plot and never called comment). -/
def dirNoComment : RDir := (plot_version.save pvFresh ⟨"h1", "t"⟩ "").dir

/-- A container whose single namespace key is a time-bucket string. -/
def fileDatedKey : RFile := [("2024-01-01_12-00-00",
  ⟨[("comment", ⟨"comment", "c"⟩), ("h1", ⟨"h1", "t"⟩)]⟩)]

/-! ## Claims -/

/-- C1 (counterexample): in a namespace where plot b has revisions 1 ("old")
and 2 ("new") and plot a has only revision 1, running get with rev = 1 exports
a and the EARLIER revision of b (title "old"), even though the latest revision
of b is "new" — so get does not export the latest revision of every
non-reserved object. -/
theorem C1_cex :
    (get_content [("ns", dirTwoRevB)] 1 1 defaultOpts true).fs =
      [FsOp.saveFile "./a.png" ⟨"a", "ta"⟩, FsOp.saveFile "./b.png" ⟨"b", "old"⟩] ∧
    getCycle dirTwoRevB "b" 2 = some ⟨"b", "new"⟩ ∧
    (⟨"b", "old"⟩ : RObj) ≠ ⟨"b", "new"⟩ := by decide

/-- C1 (amended): get is revision-addressed, not latest-addressed: for the
namespace of dirTwoRevB shape (universal in all titles, output directory and
requested types), get with rev = 1 exports exactly the revision-1 objects a
and b (with the revision-1 payload of b, not the latest), and get with
rev = 2 exports exactly b at revision 2, skipping a entirely. -/
theorem C1_amended (c1 c2 ta tb1 tb2 o : String) (tps : List String) :
    (get_content [("ns", ⟨[("comment", ⟨"comment", c1⟩), ("a", ⟨"a", ta⟩),
        ("b", ⟨"b", tb1⟩), ("comment", ⟨"comment", c2⟩), ("b", ⟨"b", tb2⟩)]⟩)]
        1 1 ⟨tps, o⟩ true).fs =
      tps.map (fun tp => FsOp.saveFile (o ++ "/" ++ "a" ++ "." ++ tp) ⟨"a", ta⟩)
      ++ tps.map (fun tp => FsOp.saveFile (o ++ "/" ++ "b" ++ "." ++ tp) ⟨"b", tb1⟩) ∧
    (get_content [("ns", ⟨[("comment", ⟨"comment", c1⟩), ("a", ⟨"a", ta⟩),
        ("b", ⟨"b", tb1⟩), ("comment", ⟨"comment", c2⟩), ("b", ⟨"b", tb2⟩)]⟩)]
        1 2 ⟨tps, o⟩ true).fs =
      tps.map (fun tp => FsOp.saveFile (o ++ "/" ++ "b" ++ "." ++ tp) ⟨"b", tb2⟩) := by
  constructor <;>
    simp [get_content, load_content, pyIndex, getDir, getCycle, namedWrites,
          exportLoop, rkeys, rkeysAux, save_obj]

/-- C2 (counterexample): on a container with one namespace, get with id = 0
(outside [1, 1]) prints "Error: Invalid id 0" but then KEEPS GOING: Python
negative indexing resolves content[-1] to the last namespace and the export
performs a filesystem write of h1.png — contradicting "aborts the operation
and performs no filesystem writes". -/
theorem C2_cex :
    get_content [("ns", dirOne)] 0 1 defaultOpts true =
      ⟨["Error: Invalid id 0", "Loading plots for ns - 1", " -> c"],
       [FsOp.saveFile "./h1.png" ⟨"h1", "t"⟩], none⟩ := by decide

/-- C2 (amended): get with an id above the namespace count, or below
1 - count, prints "Error: Invalid id" and then raises IndexError at
content[id - 1] with no filesystem writes; ids in [1 - count, 0] print the
message but resolve a namespace by negative indexing and export it (see the
counterexample). -/
theorem C2_amended (rf : RFile) (id rev : Int) (opt : Opts) (ex : Bool)
    (h : id > (rf.length : Int) ∨ id < 1 - (rf.length : Int)) :
    get_content rf id rev opt ex =
      ⟨["Error: Invalid id " ++ toString id], [], some PyErr.indexError⟩ := by
  have hlen : (load_content rf).length = rf.length := by simp [load_content]
  have hcond : (id ≤ 0 ∨ id > ((load_content rf).length : Int)) := by
    rw [hlen]; omega
  have hnone : pyIndex (load_content rf) (id - 1) = none := by
    unfold pyIndex
    rcases h with h | h
    · rw [if_pos (by omega : (0:Int) ≤ id - 1)]
      apply List.getElem?_eq_none
      rw [hlen]; omega
    · rw [if_neg (by omega : ¬ (0:Int) ≤ id - 1), hlen,
          if_neg (by omega : ¬ (0:Int) ≤ id - 1 + (rf.length : Int))]
  simp [get_content, hnone, hcond]

/-- C2 (witness): the amended theorem applied at a concrete out-of-range id. -/
theorem C2_amended_witness :
    get_content [("ns", dirOne)] 5 1 defaultOpts true =
      ⟨["Error: Invalid id 5"], [], some PyErr.indexError⟩ :=
  C2_amended [("ns", dirOne)] 5 1 defaultOpts true (Or.inl (by decide))

/-- C3 (counterexample): on a container whose namespace key is
"2024-01-01_12-00-00", get with the literal key raises ValueError at
int(args[1]) before anything is resolved, while get with the 1-based index "1"
resolves the namespace and exports h1.png — the two invocations are NOT
equivalent and no literal-key lookup exists. -/
theorem C3_cex :
    cli_get fileDatedKey "2024-01-01_12-00-00" "1" defaultOpts true =
      ⟨[], [], some PyErr.valueError⟩ ∧
    cli_get fileDatedKey "1" "1" defaultOpts true =
      ⟨["Loading plots for 2024-01-01_12-00-00 - 1", " -> c"],
       [FsOp.saveFile "./h1.png" ⟨"h1", "t"⟩], none⟩ := by decide

/-- C3 (amended): get parses its id argument with int() and interprets it only
as a 1-based position; any id argument that is not an integer literal — in
particular a literal namespace key containing non-digits — raises ValueError
before any lookup, for every container, revision argument and options. -/
theorem C3_amended (rf : RFile) (idArg revArg : String) (opt : Opts) (ex : Bool)
    (h : pyInt idArg = none) :
    cli_get rf idArg revArg opt ex = ⟨[], [], some PyErr.valueError⟩ := by
  simp [cli_get, h]

/-- C3 (witness): the amended theorem applied to the dated namespace key. -/
theorem C3_amended_witness :
    cli_get fileDatedKey "2024-01-01_12-00-00" "7" defaultOpts false =
      ⟨[], [], some PyErr.valueError⟩ :=
  C3_amended fileDatedKey "2024-01-01_12-00-00" "7" defaultOpts false (by decide)

/-- C4 (counterexample): after tag("") and comment("c") in a fresh session,
the tag object is present at cycle 1, yet list shows the row UNtagged (no
marker, no tag-message line) — presence of the tag object does not determine
the marker; its non-empty title does. -/
theorem C4_cex :
    list_directory (plot_version.comment (plot_version.tag pvFresh "").1 "c").dir =
      Except.ok [⟨false, 1, "c", none⟩] ∧
    getCycle (plot_version.comment (plot_version.tag pvFresh "").1 "c").dir
      "tag" 1 = some ⟨"tag", ""⟩ := ⟨rfl, rfl⟩

/-- C4 (amended): list marks a row tagged exactly when the tag object at that
cycle exists AND its message is non-empty: after tag("") the row shows
untagged; after tag(m) with non-empty m it shows tagged with message m; with
no tag call it shows untagged (universal in the comment text c and message
m). -/
theorem C4_amended (c m : String) (h : m ≠ "") :
    list_directory (plot_version.comment (plot_version.tag pvFresh "").1 c).dir =
      Except.ok [⟨false, 1, c, none⟩] ∧
    list_directory (plot_version.comment (plot_version.tag pvFresh m).1 c).dir =
      Except.ok [⟨true, 1, c, some m⟩] ∧
    list_directory (plot_version.comment pvFresh c).dir =
      Except.ok [⟨false, 1, c, none⟩] := by
  refine ⟨rfl, ?_, rfl⟩
  simp [list_directory, getKeyCycle, listDirLoop, ldRow, getCycle, namedWrites,
        plot_version.comment, plot_version.tag, pvFresh, writeObj, h]

/-- C4 (witness): the amended theorem at concrete comment and tag texts. -/
theorem C4_amended_witness :
    list_directory (plot_version.comment (plot_version.tag pvFresh "").1 "cc").dir =
      Except.ok [⟨false, 1, "cc", none⟩] ∧
    list_directory (plot_version.comment (plot_version.tag pvFresh "mm").1 "cc").dir =
      Except.ok [⟨true, 1, "cc", some "mm"⟩] ∧
    list_directory (plot_version.comment pvFresh "cc").dir =
      Except.ok [⟨false, 1, "cc", none⟩] :=
  C4_amended "cc" "mm" (by decide)

/-- C5 (counterexample): on a namespace where comment was never written,
list raises AttributeError (GetKey("comment") is None and GetCycle is called
on it), and get prints "Error: Invalid revision 1" and then raises
AttributeError at cmt.GetTitle(), performing no exports — absence of the
comment object is NOT rendered as an empty string. -/
theorem C5_cex :
    list_directory dirNoComment = Except.error PyErr.attributeError ∧
    get_content [("ns", dirNoComment)] 1 1 defaultOpts true =
      ⟨["Error: Invalid revision 1", "Loading plots for ns - 1"], [],
       some PyErr.attributeError⟩ := ⟨rfl, by decide⟩

/-- C5 (amended): for every namespace with no comment object, list fails with
AttributeError, and get (any revision, options, output-directory state) prints
the Invalid-revision message and fails with AttributeError, with no filesystem
writes. -/
theorem C5_amended (d : RDir) (rev : Int) (opt : Opts) (ex : Bool) (k : String)
    (h : namedWrites d "comment" = []) :
    list_directory d = Except.error PyErr.attributeError ∧
    get_content [(k, d)] 1 rev opt ex =
      ⟨["Error: Invalid revision " ++ toString rev,
        "Loading plots for " ++ k ++ " - " ++ toString rev],
       [], some PyErr.attributeError⟩ := by
  have hnone : getCycle d "comment" rev = none := by
    unfold getCycle; split
    · rfl
    · simp [h]
  constructor
  · simp [list_directory, getKeyCycle, h]
  · simp [get_content, load_content, pyIndex, getDir, hnone]

/-- C5 (witness): the amended theorem applied to the comment-less namespace. -/
theorem C5_amended_witness :
    list_directory dirNoComment = Except.error PyErr.attributeError ∧
    get_content [("k", dirNoComment)] 1 2 defaultOpts false =
      ⟨["Error: Invalid revision 2", "Loading plots for k - 2"],
       [], some PyErr.attributeError⟩ :=
  C5_amended dirNoComment 2 defaultOpts false "k" (by decide)

/-- C6 (counterexample): calling close() on a fresh session does NOT release
the file handle: the call raises TypeError (close is defined without a self
parameter), so the claimed behaviour "releases the file handle" is false. -/
theorem C6_cex :
    (plot_version.closeCall pvFresh).fileClosed = false ∧
    (plot_version.closeCall pvFresh).err = some PyErr.typeError := ⟨rfl, rfl⟩

/-- C6 (amended): for every writer state, calling close() raises TypeError,
writes nothing and does not release the handle; and the body of close as
written — were self bound — on an uncommented, untagged session auto-writes a
"MISSING COMMENT" comment and an empty tag before TAG raises NameError, so
the file is still never closed. -/
theorem C6_amended (pv : PlotVersion) :
    plot_version.closeCall pv = ⟨pv, false, some PyErr.typeError⟩ ∧
    plot_version.closeBody ⟨pv.dir, false, false⟩ =
      ⟨⟨writeObj (writeObj pv.dir "comment" ⟨"comment", "MISSING COMMENT"⟩)
          "tag" ⟨"tag", ""⟩, false, true⟩, false, some PyErr.nameError⟩ :=
  ⟨rfl, rfl⟩

/-- C7: the claim (close must be callable even on an empty session) is what
the module docstring and test.py rely on, but close is defined without a self
parameter, so for every writer state — including one where nothing was ever
written — pv.close() raises TypeError and never releases the file. -/
theorem C7_close_typeerror (pv : PlotVersion) :
    (plot_version.closeCall pv).err = some PyErr.typeError ∧
    (plot_version.closeCall pv).fileClosed = false := ⟨rfl, rfl⟩

/-- C8 (counterexample): with the configured output directory "out/{key}" and
namespace key "2024-01-01_12-00-00", get creates and uses the directory
literally named "out/{key}" and writes "out/{key}/h1.png" — the key is never
substituted into the template. -/
theorem C8_cex :
    get_content [("2024-01-01_12-00-00",
        ⟨[("comment", ⟨"comment", "c"⟩), ("h1", ⟨"h1", "t"⟩)]⟩)]
        1 1 ⟨["png"], "out/\x7bkey\x7d"⟩ false =
      ⟨["Loading plots for 2024-01-01_12-00-00 - 1", " -> c",
        "Creating output directory: out/\x7bkey\x7d"],
       [FsOp.makedirs "out/\x7bkey\x7d",
        FsOp.saveFile "out/\x7bkey\x7d/h1.png" ⟨"h1", "t"⟩],
       none⟩ := by decide

/-- C8 (amended): the configured output directory is always used literally:
for every namespace key, comment text, plot title, requested types and
configured directory string o, get creates o itself and writes every export
under o — the resolved namespace key never enters the paths. -/
theorem C8_amended (key o c t : String) (tps : List String) :
    get_content [(key, ⟨[("comment", ⟨"comment", c⟩), ("h1", ⟨"h1", t⟩)]⟩)]
        1 1 ⟨tps, o⟩ false =
      ⟨["Loading plots for " ++ key ++ " - " ++ "1", " -> " ++ c,
        "Creating output directory: " ++ o],
       FsOp.makedirs o ::
         tps.map (fun tp => FsOp.saveFile (o ++ "/" ++ "h1" ++ "." ++ tp) ⟨"h1", t⟩),
       none⟩ := by
  have h1 : toString (1 : Int) = "1" := rfl
  simp [get_content, load_content, pyIndex, getDir, getCycle, namedWrites,
        exportLoop, rkeys, rkeysAux, save_obj, h1]

/-- C9: round-trip — saving a plot whose own name is "h1" in a fresh session
(key name defaulted from the plot), then adding a comment and running get on
that namespace with format "png", writes exactly the file named h1.png (path
o ++ "/" ++ "h1" ++ "." ++ "png") holding the saved object, inside the
resolved output directory o, for every plot title, comment text, namespace
key and output directory. -/
theorem C9_roundtrip (title cmsg key o : String) :
    (get_content [(key, (plot_version.comment
        (plot_version.save pvFresh ⟨"h1", title⟩ "") cmsg).dir)]
        1 1 ⟨["png"], o⟩ true).fs =
      [FsOp.saveFile (o ++ "/" ++ "h1" ++ "." ++ "png") ⟨"h1", title⟩] := by
  simp [get_content, load_content, pyIndex, getDir, getCycle, namedWrites,
        exportLoop, rkeys, rkeysAux, save_obj, plot_version.comment,
        plot_version.save, pvFresh, writeObj]

/-- C10: for every writer state and message, tag(msg) first appends the tag
object ⟨"tag", msg⟩ to the namespace and then raises NameError (the assignment
references the undefined lowercase name true), so tag never returns normally
and the tagged flag is left exactly as it was — never set to True. -/
theorem C10_tag_nameerror (pv : PlotVersion) (msg : String) :
    plot_version.tag pv msg =
      ({ pv with dir := writeObj pv.dir "tag" ⟨"tag", msg⟩ }, some PyErr.nameError) ∧
    (plot_version.tag pv msg).1.tagged = pv.tagged := ⟨rfl, rfl⟩
